import Mathlib

/-!
Verification of the alsoran gNB-CU-CP worker core: a shallow embedding of the
worker engine, its coordinator refresh task, and the NG Setup, GNB-CU
Configuration Update and RRC-framing code paths, with theorems about the
claims of the specification.

Opaque external collaborators (ASN.1 codecs, PDCP framing, the SCTP stack and
the coordinator HTTP client) are modelled as explicit function-valued
environments; the control flow of each embedded function is translated from
the corresponding Rust source.
-/

namespace Alsoran

/-! ## Configuration data model (gnb-cu-cp config.rs, via worker.rs usage) -/

/-- Placeholder for the autonomous-mode connection control configuration,
whose fields no embedded code path inspects. -/
structure ConnectionControlConfig where
  deriving DecidableEq, Repr

/-- Coordinated-mode connection management configuration, as destructured in
worker.rs: the coordinator base path, the connection API base path reported in
refreshes, and the connection API bind port. -/
structure WorkerConnectionManagementConfig where
  coordinator_base_path : String
  connection_api_base_path : String
  connection_api_bind_port : Nat
  deriving DecidableEq, Repr

/-- The connection style sum type: exactly one of Autonomous or Coordinated. -/
inductive ConnectionStyle
  | autonomous (c : ConnectionControlConfig)
  | coordinated (c : WorkerConnectionManagementConfig)
  deriving DecidableEq, Repr

/-- The worker configuration fields the embedded code paths read: the 3-byte
PLMN, the local IP address, the optional gNB name, and the connection style. -/
structure Config where
  plmn : List Nat
  ip_addr : String
  name : Option String
  connection_style : ConnectionStyle
  deriving DecidableEq, Repr

/-! ## NGAP types used by the NG Setup workflow (ng_setup.rs) -/

structure RanNodeName where
  val : String
  deriving DecidableEq, Repr

structure AmfName where
  val : String
  deriving DecidableEq, Repr

inductive PagingDrx
  | v32
  | v64
  | v128
  | v256
  deriving DecidableEq, Repr

/-- Single network slice selection assistance information: slice/service type
and optional slice differentiator, as in xxap::Snssai. -/
structure Snssai where
  sst : Nat
  sd : Option (List Nat)
  deriving DecidableEq, Repr

structure SliceSupportItem where
  snssai : Snssai
  deriving DecidableEq, Repr

structure BroadcastPlmnItem where
  plmn_identity : List Nat
  tai_slice_support_list : List SliceSupportItem
  npn_support : Option Unit
  extended_tai_slice_support_list : Option Unit
  deriving DecidableEq, Repr

structure SupportedTaItem where
  tac : List Nat
  broadcast_plmn_list : List BroadcastPlmnItem
  configured_tac_indication : Option Unit
  rat_information : Option Unit
  deriving DecidableEq, Repr

/-- Modelled from the spec: the global RAN node id built by
build_ngap::build_global_ran_node_id, whose source file is not part of this
repository snapshot. The spec only records that the NgSetupRequest carries a
global RAN node id derived from the configuration, so it is modelled as the
configured PLMN; no claim constrains its value. -/
structure GlobalRanNodeId where
  plmn : List Nat
  deriving DecidableEq, Repr

/-- Modelled from the spec: see GlobalRanNodeId. -/
def build_global_ran_node_id (c : Config) : GlobalRanNodeId :=
  { plmn := c.plmn }

/-- The NgSetupRequest fields populated by ng_setup.rs. -/
structure NgSetupRequest where
  global_ran_node_id : GlobalRanNodeId
  ran_node_name : Option RanNodeName
  supported_ta_list : List SupportedTaItem
  default_paging_drx : PagingDrx
  ue_retention_information : Option Unit
  nb_iot_default_paging_drx : Option Unit
  extended_ran_node_name : Option Unit
  deriving DecidableEq, Repr

/-- The NgSetupResponse field the workflow reads: the AMF's name. -/
structure NgSetupResponse where
  amf_name : Option AmfName
  deriving DecidableEq, Repr

/-- The NgSetupFailure payload of an UnsuccessfulOutcome, kept opaque. -/
structure NgSetupFailure where
  cause : String
  deriving DecidableEq, Repr

/-- The request error variants of the protocol stack contract (net crate,
as the spec records them): no association, encode failure, timeout, an
UnsuccessfulOutcome from the peer carrying the procedure's failure type, or
an SCTP peer reset. -/
inductive RequestError (F : Type)
  | noAssociation
  | encodeFailed
  | timeout
  | unsuccessfulOutcome (f : F)
  | peerReset
  deriving DecidableEq, Repr

/-- The NgSetupRequest literal of Workflow::ng_setup, line for line: the
global RAN node id from the configuration, the RAN node name from the
config's optional name, one supported TA item with TAC bytes 0,0,1 whose
single broadcast PLMN is the configured PLMN with three supported slices,
and default paging DRX V128. -/
def build_ng_setup_request (c : Config) : NgSetupRequest :=
  { global_ran_node_id := build_global_ran_node_id c
    ran_node_name := c.name.map RanNodeName.mk
    supported_ta_list :=
      [{ tac := [0, 0, 1]
         broadcast_plmn_list :=
           [{ plmn_identity := c.plmn
              tai_slice_support_list :=
                [{ snssai := { sst := 1, sd := none } },
                 { snssai := { sst := 1, sd := some [0, 0, 0] } },
                 { snssai := { sst := 1, sd := some [0, 0, 1] } }]
              npn_support := none
              extended_tai_slice_support_list := none }]
         configured_tac_indication := none
         rat_information := none }]
    default_paging_drx := PagingDrx.v128
    ue_retention_information := none
    nb_iot_default_paging_drx := none
    extended_ran_node_name := none }

/-- Observable steps of the NG Setup workflow, in the order they occur. -/
inductive NgEvent
  | connectAmf (address : String)
  | logMessage (s : String)
  | sendNgSetupRequest (r : NgSetupRequest)
  | logNgapInitialized (amf_name : Option AmfName)
  deriving DecidableEq, Repr

/-- The NGAP stack environment the workflow runs against: the outcome of
ngap_connect for each AMF IP address, and the outcome of the NgSetupProcedure
request for each request value. -/
structure NgapStack where
  connectResult : String → Except String Unit
  ngSetupResult : NgSetupRequest → Except (RequestError NgSetupFailure) NgSetupResponse

/-- The workflow's error: connect failure (the anyhow message names the AMF
address) or a stack request error propagated by the question-mark operator. -/
inductive NgSetupError
  | connectFailed (amf_ip_address : String)
  | requestFailed (e : RequestError NgSetupFailure)
  deriving DecidableEq, Repr

/-- Workflow::ng_setup of ng_setup.rs: connect to the AMF, send the
NgSetupRequest literal, log the response's AMF name, return Ok; any failure
aborts the workflow with an error. Returns the event trace and the result. -/
def ng_setup (cfg : Config) (stack : NgapStack) (amf_ip_address : String) :
    List NgEvent × Except NgSetupError Unit :=
  match stack.connectResult amf_ip_address with
  | .error _ =>
    ([NgEvent.connectAmf amf_ip_address], .error (.connectFailed amf_ip_address))
  | .ok _ =>
    let req := build_ng_setup_request cfg
    match stack.ngSetupResult req with
    | .error e =>
      ([NgEvent.connectAmf amf_ip_address, NgEvent.logMessage "NgSetupRequest >>",
        NgEvent.sendNgSetupRequest req],
       .error (.requestFailed e))
    | .ok resp =>
      ([NgEvent.connectAmf amf_ip_address, NgEvent.logMessage "NgSetupRequest >>",
        NgEvent.sendNgSetupRequest req, NgEvent.logMessage "NgSetupResponse <<",
        NgEvent.logNgapInitialized resp.amf_name],
       .ok ())

/-! ## Concrete example values used by witnesses and counterexamples -/

/-- A Coordinated-mode example configuration with the PLMN of scenario S1. -/
def cfgExample : Config :=
  { plmn := [2, 248, 57]
    ip_addr := "127.0.0.1"
    name := some "alsoran-cu"
    connection_style := ConnectionStyle.coordinated
      { coordinator_base_path := "http://127.0.0.1:34984"
        connection_api_base_path := "http://127.0.0.1:18080"
        connection_api_bind_port := 18080 } }

/-- An NGAP stack whose connect always succeeds and whose NG Setup request
always succeeds with AMF name mock-amf. -/
def ngapStackOk : NgapStack :=
  { connectResult := fun _ => .ok ()
    ngSetupResult := fun _ => .ok { amf_name := some { val := "mock-amf" } } }

/-- An NGAP stack whose connect always fails. -/
def ngapStackDown : NgapStack :=
  { connectResult := fun _ => .error "connection refused"
    ngSetupResult := fun _ => .error (.noAssociation) }

/-! ## Claim theorems for NG Setup -/

/-- Claim C1: for every AMF IP address string, the NG Setup workflow first
connects to the AMF, then sends an NgSetupRequest whose default_paging_drx is
V128, whose supported_ta_list contains exactly one TA item with tac 0,0,1 and
a broadcast PLMN equal to the configured PLMN, and whose ran_node_name is
taken from the config's optional name; on receiving the NgSetupResponse it
logs the NGAP-interface-initialized line with the response's AMF name and
returns Ok. -/
theorem ng_setup_happy_path (cfg : Config) (stack : NgapStack)
    (amf_ip_address : String) (resp : NgSetupResponse)
    (hconn : stack.connectResult amf_ip_address = .ok ())
    (hreq : stack.ngSetupResult (build_ng_setup_request cfg) = .ok resp) :
    ng_setup cfg stack amf_ip_address =
      ([NgEvent.connectAmf amf_ip_address,
        NgEvent.logMessage "NgSetupRequest >>",
        NgEvent.sendNgSetupRequest (build_ng_setup_request cfg),
        NgEvent.logMessage "NgSetupResponse <<",
        NgEvent.logNgapInitialized resp.amf_name],
       Except.ok ())
    ∧ (build_ng_setup_request cfg).default_paging_drx = PagingDrx.v128
    ∧ (build_ng_setup_request cfg).supported_ta_list.length = 1
    ∧ (∀ item ∈ (build_ng_setup_request cfg).supported_ta_list,
        item.tac = [0, 0, 1]
        ∧ item.broadcast_plmn_list.map BroadcastPlmnItem.plmn_identity = [cfg.plmn])
    ∧ (build_ng_setup_request cfg).ran_node_name = cfg.name.map RanNodeName.mk := by
  refine ⟨?_, rfl, rfl, ?_, rfl⟩
  · simp [ng_setup, hconn, hreq]
  · intro item hitem
    simp only [build_ng_setup_request, List.mem_singleton] at hitem
    subst hitem
    exact ⟨rfl, rfl⟩

/-- Witness for C1 at the mock-AMF environment of scenario S1. -/
theorem ng_setup_happy_path_witness :
    ngapStackOk.connectResult "127.0.0.1" = .ok ()
    ∧ ngapStackOk.ngSetupResult (build_ng_setup_request cfgExample) =
        .ok { amf_name := some { val := "mock-amf" } }
    ∧ (ng_setup cfgExample ngapStackOk "127.0.0.1" =
        ([NgEvent.connectAmf "127.0.0.1",
          NgEvent.logMessage "NgSetupRequest >>",
          NgEvent.sendNgSetupRequest (build_ng_setup_request cfgExample),
          NgEvent.logMessage "NgSetupResponse <<",
          NgEvent.logNgapInitialized (some { val := "mock-amf" })],
         Except.ok ())
      ∧ (build_ng_setup_request cfgExample).default_paging_drx = PagingDrx.v128
      ∧ (build_ng_setup_request cfgExample).supported_ta_list.length = 1
      ∧ (∀ item ∈ (build_ng_setup_request cfgExample).supported_ta_list,
          item.tac = [0, 0, 1]
          ∧ item.broadcast_plmn_list.map BroadcastPlmnItem.plmn_identity =
              [cfgExample.plmn])
      ∧ (build_ng_setup_request cfgExample).ran_node_name =
          cfgExample.name.map RanNodeName.mk) :=
  ⟨rfl, rfl,
    ng_setup_happy_path cfgExample ngapStackOk "127.0.0.1"
      { amf_name := some { val := "mock-amf" } } rfl rfl⟩

/-- Claim C7: the NG Setup workflow returns an error whenever the connection
to the AMF fails or the NgSetupRequest fails with any stack error or an
UnsuccessfulOutcome from the peer; it returns Ok exactly when both the
connect and the request succeed. -/
theorem ng_setup_result_characterization (cfg : Config) (stack : NgapStack)
    (amf_ip_address : String) :
    ((ng_setup cfg stack amf_ip_address).2 = Except.ok () ↔
      (stack.connectResult amf_ip_address = Except.ok ()
        ∧ ∃ resp, stack.ngSetupResult (build_ng_setup_request cfg) = Except.ok resp))
    ∧ (∀ e, stack.connectResult amf_ip_address = Except.error e →
        (ng_setup cfg stack amf_ip_address).2 =
          Except.error (NgSetupError.connectFailed amf_ip_address))
    ∧ (∀ e, stack.connectResult amf_ip_address = Except.ok () →
        stack.ngSetupResult (build_ng_setup_request cfg) = Except.error e →
        (ng_setup cfg stack amf_ip_address).2 =
          Except.error (NgSetupError.requestFailed e)) := by
  refine ⟨?_, ?_, ?_⟩
  · unfold ng_setup
    cases hconn : stack.connectResult amf_ip_address with
    | error e => simp [hconn]
    | ok u =>
      cases u
      cases hreq : stack.ngSetupResult (build_ng_setup_request cfg) with
      | error e => simp [hreq]
      | ok resp => simp [hreq]
  · intro e hconn
    simp [ng_setup, hconn]
  · intro e hconn hreq
    simp [ng_setup, hconn, hreq]

/-! ## Worker engine state (worker.rs) -/

/-- The coordinator API error (swagger ApiError), kept opaque. -/
structure ApiError where
  msg : String
  deriving DecidableEq, Repr

/-- The 128-bit worker UUID, modelled as its numeric value. -/
structure Uuid where
  val : Nat
  deriving DecidableEq, Repr

structure WorkerInfo where
  connection_api_url : String
  f1_address : String
  e1_address : String
  deriving DecidableEq, Repr

structure ConnectionState where
  ng_up : Bool
  f1_up : Bool
  e1_up : Bool
  deriving DecidableEq, Repr

structure RefreshWorker where
  worker_id : Uuid
  worker_info : WorkerInfo
  connection_state : ConnectionState
  deriving DecidableEq, Repr

/-- The per-interface stack attribute the worker reads for liveness: the set
of remote TNLA addresses, modelled as a list. -/
structure StackState where
  remote_tnla_addresses : List String
  deriving DecidableEq, Repr

/-- The UE state fields named by the spec's data model that the embedded code
paths touch: the UE key and the DU-assigned F1AP id. -/
structure UeState where
  key : Nat
  gnb_du_ue_f1ap_id : Nat
  deriving DecidableEq, Repr

structure StoreError where
  msg : String
  deriving DecidableEq, Repr

/-- The UE state store capability set, as result-valued operations. -/
structure UeStateStore where
  store : Nat → UeState → Nat → Except StoreError Unit
  retrieve : Nat → Except StoreError UeState
  delete : Nat → Except StoreError Unit

/-- The Worker struct fields the embedded code paths read. -/
structure WorkerState where
  worker_id : Uuid
  config : Config
  ngap : StackState
  f1ap : StackState
  e1ap : StackState
  ue_store : UeStateStore

/-- The connection API URL reported in refreshes: empty in Autonomous mode,
the configured connection API base path in Coordinated mode. -/
def connection_api_url (c : Config) : String :=
  match c.connection_style with
  | ConnectionStyle.autonomous _ => ""
  | ConnectionStyle.coordinated w => w.connection_api_base_path

/-- The RefreshWorker message that Worker::send_refresh_worker builds and
passes to coordinator.refresh_worker: the worker UUID, the connection API
URL, the configured local IP as both F1 and E1 address, and per-stack
up-flags derived from remote_tnla_addresses being non-empty. The call's
outcome is supplied by the environment at each call site. -/
def send_refresh_worker (w : WorkerState) : RefreshWorker :=
  { worker_id := w.worker_id
    worker_info :=
      { connection_api_url := connection_api_url w.config
        f1_address := w.config.ip_addr
        e1_address := w.config.ip_addr }
    connection_state :=
      { ng_up := !w.ngap.remote_tnla_addresses.isEmpty
        f1_up := !w.f1ap.remote_tnla_addresses.isEmpty
        e1_up := !w.e1ap.remote_tnla_addresses.isEmpty } }

/-- The refresh interval of Worker::send_periodic_refreshes_to_coordinator:
a local constant of 10 seconds (the source marks making it configurable as a
TODO; no configuration field feeds it). -/
def interval_secs : Nat := 10

instance instDecidableEqExcept {e a : Type} [DecidableEq e] [DecidableEq a] :
    DecidableEq (Except e a) := fun x y =>
  match x, y with
  | .ok u, .ok v =>
    if h : u = v then .isTrue (congrArg Except.ok h)
    else .isFalse (fun c => h (Except.ok.inj c))
  | .error u, .error v =>
    if h : u = v then .isTrue (congrArg Except.error h)
    else .isFalse (fun c => h (Except.error.inj c))
  | .ok _, .error _ => .isFalse (fun c => Except.noConfusion c)
  | .error _, .ok _ => .isFalse (fun c => Except.noConfusion c)

/-- Observable steps of the periodic refresh task and of
associate_connection, each stamped with the abstract time it occurs at. -/
inductive RefreshEvent
  | sentRefresh (time : Nat) (r : RefreshWorker) (result : Except ApiError Unit)
  | warnedFailure (time : Nat) (e : ApiError)
  | exited (time : Nat)
  deriving DecidableEq, Repr

/-- One loop iteration body: send the refresh, and on failure log a warning
(the if-let-Err arm of the source); the result never alters control flow. -/
def refresh_tick_events (w : WorkerState) (result : Except ApiError Unit)
    (t : Nat) : List RefreshEvent :=
  match result with
  | .ok _ => [RefreshEvent.sentRefresh t (send_refresh_worker w) (.ok ())]
  | .error e =>
    [RefreshEvent.sentRefresh t (send_refresh_worker w) (.error e),
     RefreshEvent.warnedFailure t e]

/-- Worker::send_periodic_refreshes_to_coordinator's spawned loop: at each
iteration send a refresh (warning on failure), then race a timer of
interval_secs against the stop token; if the stop token fires within the
window the loop breaks, otherwise it continues one interval later. The
environment maps each tick's start time to that call's outcome; stopTime is
the abstract time the stop token fires, and the tick starting at time t
observes it during its wait exactly when stopTime is at most t plus the
interval. -/
def send_periodic_refreshes (w : WorkerState) (env : Nat → Except ApiError Unit)
    (stopTime t : Nat) : List RefreshEvent :=
  refresh_tick_events w (env t) t ++
    (if _h : stopTime ≤ t + interval_secs then [RefreshEvent.exited (max t stopTime)]
     else send_periodic_refreshes w env stopTime (t + interval_secs))
termination_by stopTime - t
decreasing_by simp [interval_secs] at *; omega

/-- GnbCuCp::associate_connection of worker.rs: the returned future sends one
immediate refresh to the coordinator, logs a warning if it fails, and always
resolves to unit. -/
def associate_connection (w : WorkerState) (result : Except ApiError Unit) :
    List RefreshEvent × Unit :=
  match result with
  | .ok _ => ([RefreshEvent.sentRefresh 0 (send_refresh_worker w) (.ok ())], ())
  | .error e =>
    ([RefreshEvent.sentRefresh 0 (send_refresh_worker w) (.error e),
      RefreshEvent.warnedFailure 0 e], ())

/-- The times at which refreshes are sent in a trace. -/
def sent_times (evs : List RefreshEvent) : List Nat :=
  evs.filterMap fun e =>
    match e with
    | RefreshEvent.sentRefresh t _ _ => some t
    | _ => none

/-- The times at which the task exits in a trace. -/
def exit_times (evs : List RefreshEvent) : List Nat :=
  evs.filterMap fun e =>
    match e with
    | RefreshEvent.exited t => some t
    | _ => none

/-! ## Helper lemmas about the refresh task -/

theorem spr_unfold (w : WorkerState) (env : Nat → Except ApiError Unit)
    (stopTime t : Nat) :
    send_periodic_refreshes w env stopTime t =
      refresh_tick_events w (env t) t ++
        (if _h : stopTime ≤ t + interval_secs then [RefreshEvent.exited (max t stopTime)]
         else send_periodic_refreshes w env stopTime (t + interval_secs)) := by
  rw [send_periodic_refreshes]

theorem tick_sent_mem (w : WorkerState) (result : Except ApiError Unit)
    (t t' : Nat) (r : RefreshWorker) (res : Except ApiError Unit) :
    RefreshEvent.sentRefresh t' r res ∈ refresh_tick_events w result t ↔
      t' = t ∧ r = send_refresh_worker w ∧ res = result := by
  cases result with
  | ok u => cases u; simp [refresh_tick_events]
  | error e => simp [refresh_tick_events]

theorem tick_warned_mem (w : WorkerState) (result : Except ApiError Unit)
    (t t' : Nat) (e : ApiError) :
    RefreshEvent.warnedFailure t' e ∈ refresh_tick_events w result t ↔
      t' = t ∧ result = .error e := by
  cases result with
  | ok u => cases u; simp [refresh_tick_events]
  | error e0 => simp [refresh_tick_events, eq_comm, and_comm]

theorem tick_exited_not_mem (w : WorkerState) (result : Except ApiError Unit)
    (t te : Nat) :
    RefreshEvent.exited te ∉ refresh_tick_events w result t := by
  cases result with
  | ok u => cases u; simp [refresh_tick_events]
  | error e => simp [refresh_tick_events]

theorem tick_sent_times (w : WorkerState) (result : Except ApiError Unit)
    (t : Nat) : sent_times (refresh_tick_events w result t) = [t] := by
  cases result with
  | ok u => cases u; simp [refresh_tick_events, sent_times]
  | error e => simp [refresh_tick_events, sent_times]

theorem tick_exit_times (w : WorkerState) (result : Except ApiError Unit)
    (t : Nat) : exit_times (refresh_tick_events w result t) = [] := by
  cases result with
  | ok u => cases u; simp [refresh_tick_events, exit_times]
  | error e => simp [refresh_tick_events, exit_times]

theorem spr_sent_worker (w : WorkerState) (env : Nat → Except ApiError Unit)
    (stopTime t : Nat) :
    ∀ t' r res, RefreshEvent.sentRefresh t' r res ∈ send_periodic_refreshes w env stopTime t →
      r = send_refresh_worker w := by
  refine send_periodic_refreshes.induct w env stopTime
    (fun t => ∀ t' r res,
      RefreshEvent.sentRefresh t' r res ∈ send_periodic_refreshes w env stopTime t →
        r = send_refresh_worker w) ?_ t
  intro t ih t' r res hmem
  rw [spr_unfold w env stopTime t] at hmem
  by_cases hle : stopTime ≤ t + interval_secs
  · rw [dif_pos hle] at hmem
    rcases List.mem_append.mp hmem with h | h
    · exact ((tick_sent_mem w (env t) t t' r res).mp h).2.1
    · simp at h
  · rw [dif_neg hle] at hmem
    rcases List.mem_append.mp hmem with h | h
    · exact ((tick_sent_mem w (env t) t t' r res).mp h).2.1
    · exact ih hle t' r res h

theorem spr_sent_before_stop (w : WorkerState) (env : Nat → Except ApiError Unit)
    (stopTime t : Nat) :
    t < stopTime →
      ∀ t' r res, RefreshEvent.sentRefresh t' r res ∈ send_periodic_refreshes w env stopTime t →
        t' < stopTime := by
  refine send_periodic_refreshes.induct w env stopTime
    (fun t => t < stopTime →
      ∀ t' r res,
        RefreshEvent.sentRefresh t' r res ∈ send_periodic_refreshes w env stopTime t →
          t' < stopTime) ?_ t
  intro t ih ht t' r res hmem
  rw [spr_unfold w env stopTime t] at hmem
  by_cases hle : stopTime ≤ t + interval_secs
  · rw [dif_pos hle] at hmem
    rcases List.mem_append.mp hmem with h | h
    · have := ((tick_sent_mem w (env t) t t' r res).mp h).1
      omega
    · simp at h
  · rw [dif_neg hle] at hmem
    rcases List.mem_append.mp hmem with h | h
    · have := ((tick_sent_mem w (env t) t t' r res).mp h).1
      omega
    · exact ih hle (by omega) t' r res h

theorem spr_exited_at_stop (w : WorkerState) (env : Nat → Except ApiError Unit)
    (stopTime t : Nat) :
    t ≤ stopTime →
      (∀ te, RefreshEvent.exited te ∈ send_periodic_refreshes w env stopTime t → te = stopTime)
      ∧ RefreshEvent.exited stopTime ∈ send_periodic_refreshes w env stopTime t := by
  refine send_periodic_refreshes.induct w env stopTime
    (fun t => t ≤ stopTime →
      (∀ te, RefreshEvent.exited te ∈ send_periodic_refreshes w env stopTime t → te = stopTime)
      ∧ RefreshEvent.exited stopTime ∈ send_periodic_refreshes w env stopTime t) ?_ t
  intro t ih ht
  by_cases hle : stopTime ≤ t + interval_secs
  · constructor
    · intro te hmem
      rw [spr_unfold w env stopTime t, dif_pos hle] at hmem
      rcases List.mem_append.mp hmem with h | h
      · exact absurd h (tick_exited_not_mem w (env t) t te)
      · simp at h
        omega
    · rw [spr_unfold w env stopTime t, dif_pos hle]
      have : max t stopTime = stopTime := by omega
      rw [this]
      exact List.mem_append.mpr (Or.inr (List.mem_singleton.mpr rfl))
  · have ih' := ih hle (by omega)
    constructor
    · intro te hmem
      rw [spr_unfold w env stopTime t, dif_neg hle] at hmem
      rcases List.mem_append.mp hmem with h | h
      · exact absurd h (tick_exited_not_mem w (env t) t te)
      · exact ih'.1 te h
    · rw [spr_unfold w env stopTime t, dif_neg hle]
      exact List.mem_append.mpr (Or.inr ih'.2)

theorem sent_times_append (l l' : List RefreshEvent) :
    sent_times (l ++ l') = sent_times l ++ sent_times l' := by
  simp [sent_times, List.filterMap_append]

theorem exit_times_append (l l' : List RefreshEvent) :
    exit_times (l ++ l') = exit_times l ++ exit_times l' := by
  simp [exit_times, List.filterMap_append]

theorem spr_sent_times_structure (w : WorkerState) (env : Nat → Except ApiError Unit)
    (stopTime t : Nat) :
    List.Chain' (fun a b => b = a + interval_secs)
        (sent_times (send_periodic_refreshes w env stopTime t))
      ∧ (sent_times (send_periodic_refreshes w env stopTime t)).head? = some t := by
  refine send_periodic_refreshes.induct w env stopTime
    (fun t => List.Chain' (fun a b => b = a + interval_secs)
        (sent_times (send_periodic_refreshes w env stopTime t))
      ∧ (sent_times (send_periodic_refreshes w env stopTime t)).head? = some t) ?_ t
  intro t ih
  by_cases hle : stopTime ≤ t + interval_secs
  · rw [spr_unfold w env stopTime t, dif_pos hle, sent_times_append, tick_sent_times]
    have : sent_times [RefreshEvent.exited (max t stopTime)] = [] := by
      simp [sent_times]
    rw [this, List.append_nil]
    exact ⟨List.chain'_singleton t, rfl⟩
  · have ih' := ih hle
    rw [spr_unfold w env stopTime t, dif_neg hle, sent_times_append, tick_sent_times,
      List.singleton_append]
    refine ⟨List.Chain'.cons' ih'.1 ?_, rfl⟩
    intro y hy
    rw [ih'.2] at hy
    simp at hy
    omega

theorem spr_env_independent (w : WorkerState) (env env' : Nat → Except ApiError Unit)
    (stopTime t : Nat) :
    sent_times (send_periodic_refreshes w env stopTime t) =
        sent_times (send_periodic_refreshes w env' stopTime t)
      ∧ exit_times (send_periodic_refreshes w env stopTime t) =
        exit_times (send_periodic_refreshes w env' stopTime t) := by
  refine send_periodic_refreshes.induct w env stopTime
    (fun t => sent_times (send_periodic_refreshes w env stopTime t) =
        sent_times (send_periodic_refreshes w env' stopTime t)
      ∧ exit_times (send_periodic_refreshes w env stopTime t) =
        exit_times (send_periodic_refreshes w env' stopTime t)) ?_ t
  intro t ih
  by_cases hle : stopTime ≤ t + interval_secs
  · rw [spr_unfold w env stopTime t, dif_pos hle,
      spr_unfold w env' stopTime t, dif_pos hle]
    rw [sent_times_append, sent_times_append, exit_times_append, exit_times_append,
      tick_sent_times, tick_sent_times, tick_exit_times, tick_exit_times]
    exact ⟨rfl, rfl⟩
  · have ih' := ih hle
    rw [spr_unfold w env stopTime t, dif_neg hle,
      spr_unfold w env' stopTime t, dif_neg hle]
    rw [sent_times_append, sent_times_append, exit_times_append, exit_times_append,
      tick_sent_times, tick_sent_times, tick_exit_times, tick_exit_times,
      ih'.1, ih'.2]
    exact ⟨rfl, rfl⟩

theorem spr_warned_iff_failed (w : WorkerState) (env : Nat → Except ApiError Unit)
    (stopTime t : Nat) :
    ∀ t' e, RefreshEvent.warnedFailure t' e ∈ send_periodic_refreshes w env stopTime t ↔
      RefreshEvent.sentRefresh t' (send_refresh_worker w) (.error e) ∈
        send_periodic_refreshes w env stopTime t := by
  refine send_periodic_refreshes.induct w env stopTime
    (fun t => ∀ t' e,
      RefreshEvent.warnedFailure t' e ∈ send_periodic_refreshes w env stopTime t ↔
        RefreshEvent.sentRefresh t' (send_refresh_worker w) (.error e) ∈
          send_periodic_refreshes w env stopTime t) ?_ t
  intro t ih t' e
  rw [spr_unfold w env stopTime t]
  by_cases hle : stopTime ≤ t + interval_secs
  · rw [dif_pos hle]
    constructor
    · intro hmem
      rcases List.mem_append.mp hmem with h | h
      · have := (tick_warned_mem w (env t) t t' e).mp h
        exact List.mem_append.mpr (Or.inl
          ((tick_sent_mem w (env t) t t' (send_refresh_worker w) (.error e)).mpr
            ⟨this.1, rfl, this.2.symm⟩))
      · simp at h
    · intro hmem
      rcases List.mem_append.mp hmem with h | h
      · have := (tick_sent_mem w (env t) t t' (send_refresh_worker w) (.error e)).mp h
        exact List.mem_append.mpr (Or.inl
          ((tick_warned_mem w (env t) t t' e).mpr ⟨this.1, this.2.2.symm⟩))
      · simp at h
  · rw [dif_neg hle]
    constructor
    · intro hmem
      rcases List.mem_append.mp hmem with h | h
      · have := (tick_warned_mem w (env t) t t' e).mp h
        exact List.mem_append.mpr (Or.inl
          ((tick_sent_mem w (env t) t t' (send_refresh_worker w) (.error e)).mpr
            ⟨this.1, rfl, this.2.symm⟩))
      · exact List.mem_append.mpr (Or.inr ((ih hle t' e).mp h))
    · intro hmem
      rcases List.mem_append.mp hmem with h | h
      · have := (tick_sent_mem w (env t) t t' (send_refresh_worker w) (.error e)).mp h
        exact List.mem_append.mpr (Or.inl
          ((tick_warned_mem w (env t) t t' e).mpr ⟨this.1, this.2.2.symm⟩))
      · exact List.mem_append.mpr (Or.inr ((ih hle t' e).mpr h))

/-! ## Example worker values for witnesses and counterexamples -/

/-- A UE state store whose operations always succeed. -/
def storeExample : UeStateStore :=
  { store := fun _ _ _ => .ok ()
    retrieve := fun k => .ok { key := k, gnb_du_ue_f1ap_id := 0 }
    delete := fun _ => .ok () }

/-- A second configuration differing from cfgExample in every field. -/
def cfgExample2 : Config :=
  { plmn := [9, 9, 9]
    ip_addr := "10.0.0.7"
    name := none
    connection_style := ConnectionStyle.autonomous {} }

def workerExample : WorkerState :=
  { worker_id := { val := 1 }
    config := cfgExample
    ngap := { remote_tnla_addresses := ["192.168.0.1:38412"] }
    f1ap := { remote_tnla_addresses := [] }
    e1ap := { remote_tnla_addresses := [] }
    ue_store := storeExample }

def workerExample2 : WorkerState :=
  { worker_id := { val := 2 }
    config := cfgExample2
    ngap := { remote_tnla_addresses := [] }
    f1ap := { remote_tnla_addresses := ["10.0.0.9:38472"] }
    e1ap := { remote_tnla_addresses := [] }
    ue_store := storeExample }

/-- A coordinator environment whose refresh calls always succeed. -/
def envOk : Nat → Except ApiError Unit := fun _ => .ok ()

/-! ## Claim theorems for the periodic refresh task -/

/-- Counterexample to claim C2 as stated: the refresh interval is not
configurable. The source hard-codes interval_secs to 10 inside the loop (with
a TODO comment), so two workers whose configurations differ in every field
still tick at the same hard-coded 10-second interval. -/
theorem refresh_interval_not_configurable :
    cfgExample ≠ cfgExample2
    ∧ interval_secs = 10
    ∧ sent_times (send_periodic_refreshes workerExample envOk 25 0) = [0, 10, 20]
    ∧ sent_times (send_periodic_refreshes workerExample2 envOk 25 0) = [0, 10, 20] := by
  refine ⟨by decide, rfl, ?_, ?_⟩ <;>
    simp [send_periodic_refreshes, refresh_tick_events, sent_times, interval_secs, envOk]

/-- Claim C2 (amended): the periodic refresh task sends a RefreshWorker
every 10 seconds, the interval being the hard-coded constant interval_secs =
10 rather than configurable; once the worker's stop token fires (at a
positive time stopTime), no send happens at or after stopTime, the task
exits exactly at stopTime (hence within one interval of the stop), and
consecutive sends are one interval apart starting from time 0. -/
theorem periodic_refresh_interval_and_stop (w : WorkerState)
    (env : Nat → Except ApiError Unit) (stopTime : Nat) (h : 0 < stopTime) :
    interval_secs = 10
    ∧ (∀ t r res, RefreshEvent.sentRefresh t r res ∈
        send_periodic_refreshes w env stopTime 0 → t < stopTime)
    ∧ (∀ te, RefreshEvent.exited te ∈ send_periodic_refreshes w env stopTime 0 →
        te = stopTime)
    ∧ RefreshEvent.exited stopTime ∈ send_periodic_refreshes w env stopTime 0
    ∧ List.Chain' (fun a b => b = a + interval_secs)
        (sent_times (send_periodic_refreshes w env stopTime 0))
    ∧ (sent_times (send_periodic_refreshes w env stopTime 0)).head? = some 0 := by
  have h2 := spr_exited_at_stop w env stopTime 0 (by omega)
  have h3 := spr_sent_times_structure w env stopTime 0
  exact ⟨rfl, spr_sent_before_stop w env stopTime 0 h, h2.1, h2.2, h3.1, h3.2⟩

/-- Witness for C2's amended theorem with the stop token firing at time 25. -/
theorem periodic_refresh_interval_and_stop_witness :
    0 < 25
    ∧ (interval_secs = 10
      ∧ (∀ t r res, RefreshEvent.sentRefresh t r res ∈
          send_periodic_refreshes workerExample envOk 25 0 → t < 25)
      ∧ (∀ te, RefreshEvent.exited te ∈ send_periodic_refreshes workerExample envOk 25 0 →
          te = 25)
      ∧ RefreshEvent.exited 25 ∈ send_periodic_refreshes workerExample envOk 25 0
      ∧ List.Chain' (fun a b => b = a + interval_secs)
          (sent_times (send_periodic_refreshes workerExample envOk 25 0))
      ∧ (sent_times (send_periodic_refreshes workerExample envOk 25 0)).head? = some 0) :=
  ⟨by decide, periodic_refresh_interval_and_stop workerExample envOk 25 (by decide)⟩

/-- Claim C5: every RefreshWorker message the worker sends (from the periodic
task and from associate_connection alike) carries the worker's UUID, the
configured local IP as both F1 and E1 address, and up-flags that are true
exactly when the corresponding stack's remote TNLA address set is
non-empty. -/
theorem refresh_worker_message_contents (w : WorkerState)
    (env : Nat → Except ApiError Unit) (stopTime t : Nat)
    (res : Except ApiError Unit) :
    (send_refresh_worker w).worker_id = w.worker_id
    ∧ (send_refresh_worker w).worker_info.f1_address = w.config.ip_addr
    ∧ (send_refresh_worker w).worker_info.e1_address = w.config.ip_addr
    ∧ ((send_refresh_worker w).connection_state.ng_up = true ↔
        w.ngap.remote_tnla_addresses ≠ [])
    ∧ ((send_refresh_worker w).connection_state.f1_up = true ↔
        w.f1ap.remote_tnla_addresses ≠ [])
    ∧ ((send_refresh_worker w).connection_state.e1_up = true ↔
        w.e1ap.remote_tnla_addresses ≠ [])
    ∧ (∀ t' r res', RefreshEvent.sentRefresh t' r res' ∈
        send_periodic_refreshes w env stopTime t → r = send_refresh_worker w)
    ∧ (∀ t' r res', RefreshEvent.sentRefresh t' r res' ∈
        (associate_connection w res).1 → r = send_refresh_worker w) := by
  refine ⟨rfl, rfl, rfl, ?_, ?_, ?_, spr_sent_worker w env stopTime t, ?_⟩
  · simp [send_refresh_worker]
  · simp [send_refresh_worker]
  · simp [send_refresh_worker]
  · intro t' r res' hmem
    cases res with
    | ok u => cases u; simp [associate_connection] at hmem; exact hmem.2.1
    | error e =>
      simp [associate_connection] at hmem
      exact hmem.2.1

/-- Claim C8: a refresh failure never propagates. The periodic task's
send-times and exit-times are independent of the per-tick outcomes (a failed
tick is retried at the next tick), each failed tick logs a warning (and
conversely each warning corresponds to a failed send), and
associate_connection resolves to unit even when its immediate refresh fails,
logging a warning in that case. -/
theorem refresh_failure_never_propagates (w : WorkerState)
    (env env' : Nat → Except ApiError Unit) (stopTime t : Nat)
    (res : Except ApiError Unit) :
    sent_times (send_periodic_refreshes w env stopTime t) =
        sent_times (send_periodic_refreshes w env' stopTime t)
    ∧ exit_times (send_periodic_refreshes w env stopTime t) =
        exit_times (send_periodic_refreshes w env' stopTime t)
    ∧ (∀ t' e, RefreshEvent.warnedFailure t' e ∈ send_periodic_refreshes w env stopTime t ↔
        RefreshEvent.sentRefresh t' (send_refresh_worker w) (.error e) ∈
          send_periodic_refreshes w env stopTime t)
    ∧ (associate_connection w res).2 = ()
    ∧ (∀ e, res = .error e →
        RefreshEvent.warnedFailure 0 e ∈ (associate_connection w res).1
        ∧ RefreshEvent.sentRefresh 0 (send_refresh_worker w) (.error e) ∈
            (associate_connection w res).1) := by
  have h1 := spr_env_independent w env env' stopTime t
  refine ⟨h1.1, h1.2, spr_warned_iff_failed w env stopTime t, rfl, ?_⟩
  intro e hres
  subst hres
  simp [associate_connection]

/-! ## Worker lifecycle (worker.rs spawn, start_servers, run) -/

/-- The shutdown handles recorded by start_servers, tagged by origin. -/
inductive HandleTag
  | f1apListener
  | e1apListener
  | connectionApiServer
  deriving DecidableEq, Repr

/-- Observable top-level steps of the worker lifecycle. -/
inductive WorkerEvent
  | startF1apListener
  | startE1apListener
  | startConnectionApiServer (port : Nat)
  | startPeriodicRefreshTask
  | awaitStopToken
  | drainShutdownHandle (h : HandleTag)
  | ngStackShutdown
  deriving DecidableEq, Repr

/-- Worker::start_servers: serve F1AP, push its shutdown handle; serve E1AP,
push its handle; in Coordinated mode, additionally serve the connection API
on the configured port and push its handle. Returns the event list and the
shutdown-handle stack in push order. -/
def start_servers (cs : ConnectionStyle) : List WorkerEvent × List HandleTag :=
  match cs with
  | ConnectionStyle.coordinated wc =>
    ([WorkerEvent.startF1apListener, WorkerEvent.startE1apListener,
      WorkerEvent.startConnectionApiServer wc.connection_api_bind_port],
     [HandleTag.f1apListener, HandleTag.e1apListener, HandleTag.connectionApiServer])
  | ConnectionStyle.autonomous _ =>
    ([WorkerEvent.startF1apListener, WorkerEvent.startE1apListener],
     [HandleTag.f1apListener, HandleTag.e1apListener])

/-- Worker::run: spawn the periodic refresh task, await the stop token, pop
and gracefully drain each recorded shutdown handle (Vec pop yields reverse
push order), and finally shut down the NG stack. -/
def run_worker (handles : List HandleTag) : List WorkerEvent :=
  [WorkerEvent.startPeriodicRefreshTask, WorkerEvent.awaitStopToken] ++
    handles.reverse.map WorkerEvent.drainShutdownHandle ++
    [WorkerEvent.ngStackShutdown]

/-- The Coordinated arm of spawn: start_servers first, then run. -/
def coordinated_worker_lifecycle (wc : WorkerConnectionManagementConfig) :
    List WorkerEvent :=
  (start_servers (ConnectionStyle.coordinated wc)).1 ++
    run_worker (start_servers (ConnectionStyle.coordinated wc)).2

/-- Claim C3: in Coordinated mode the worker starts, in order, the F1AP
listener, the E1AP listener, the Connection API server, and the periodic
refresh task; after the stop token fires it drains the recorded shutdown
handles in reverse order of their creation and shuts the NG stack down
last. -/
theorem coordinated_startup_shutdown_order (wc : WorkerConnectionManagementConfig) :
    coordinated_worker_lifecycle wc =
      [WorkerEvent.startF1apListener, WorkerEvent.startE1apListener,
       WorkerEvent.startConnectionApiServer wc.connection_api_bind_port,
       WorkerEvent.startPeriodicRefreshTask, WorkerEvent.awaitStopToken,
       WorkerEvent.drainShutdownHandle HandleTag.connectionApiServer,
       WorkerEvent.drainShutdownHandle HandleTag.e1apListener,
       WorkerEvent.drainShutdownHandle HandleTag.f1apListener,
       WorkerEvent.ngStackShutdown]
    ∧ (start_servers (ConnectionStyle.coordinated wc)).2 =
        [HandleTag.f1apListener, HandleTag.e1apListener, HandleTag.connectionApiServer]
    ∧ run_worker (start_servers (ConnectionStyle.coordinated wc)).2 =
        [WorkerEvent.startPeriodicRefreshTask, WorkerEvent.awaitStopToken] ++
          ((start_servers (ConnectionStyle.coordinated wc)).2.reverse.map
            WorkerEvent.drainShutdownHandle) ++
          [WorkerEvent.ngStackShutdown] :=
  ⟨rfl, rfl, rfl⟩

/-! ## Worker as a UE state store (impl StateStore of UeState for Worker) -/

/-- Worker's StateStore store: delegates to the underlying UE store. -/
def worker_store (w : WorkerState) (k : Nat) (s : UeState) (ttl_secs : Nat) :
    Except StoreError Unit :=
  w.ue_store.store k s ttl_secs

/-- Worker's StateStore retrieve: delegates to the underlying UE store. -/
def worker_retrieve (w : WorkerState) (k : Nat) : Except StoreError UeState :=
  w.ue_store.retrieve k

/-- Worker's StateStore delete: delegates to the underlying UE store. -/
def worker_delete (w : WorkerState) (k : Nat) : Except StoreError Unit :=
  w.ue_store.delete k

/-- Claim C10: for every key, UE state and TTL, the Worker's store, retrieve
and delete return exactly the result of the same operation on its underlying
UE state store — the Worker adds no caching, transformation, or extra
failure case on the store path. -/
theorem worker_state_store_delegates (w : WorkerState) (k : Nat) (s : UeState)
    (ttl_secs : Nat) :
    worker_store w k s ttl_secs = w.ue_store.store k s ttl_secs
    ∧ worker_retrieve w k = w.ue_store.retrieve k
    ∧ worker_delete w k = w.ue_store.delete k :=
  ⟨rfl, rfl, rfl⟩

/-! ## GNB-CU Configuration Update workflow (gnb_cu_configuration_update.rs) -/

/-- An F1AP transport layer address: an opaque bit string produced by the
xxap codec's TryFrom of an IP address string (out of scope, supplied by the
environment). -/
structure TransportLayerAddress where
  bits : List Bool
  deriving DecidableEq, Repr

/-- The CP transport layer address choice: a bare endpoint IP address or an
endpoint IP address with a port. -/
inductive CpTransportLayerAddress
  | endpointIpAddress (a : TransportLayerAddress)
  | endpointIpAddressAndPort (a : TransportLayerAddress) (port : Nat)
  deriving DecidableEq, Repr

inductive TnlAssociationUsage
  | ue
  | nonUe
  | both
  deriving DecidableEq, Repr

structure GnbCuTnlAssociationToAddItem where
  tnl_association_transport_layer_address : CpTransportLayerAddress
  tnl_association_usage : TnlAssociationUsage
  deriving DecidableEq, Repr

/-- The GnbCuConfigurationUpdate fields populated by the workflow. -/
structure GnbCuConfigurationUpdate where
  transaction_id : Nat
  cells_to_be_activated_list : Option Unit
  cells_to_be_deactivated_list : Option Unit
  gnb_cu_tnl_association_to_add_list : Option (List GnbCuTnlAssociationToAddItem)
  gnb_cu_tnl_association_to_remove_list : Option Unit
  gnb_cu_tnl_association_to_update_list : Option Unit
  cells_to_be_barred_list : Option Unit
  protected_eutra_resources_list : Option Unit
  neighbour_cell_information_list : Option Unit
  transport_layer_address_info : Option Unit
  ul_bh_non_up_traffic_mapping : Option Unit
  bap_address : Option Unit
  deriving DecidableEq, Repr

/-- The acknowledge payload, of which the workflow reads nothing. -/
structure GnbCuConfigurationUpdateAcknowledge where
  transaction_id : Nat
  deriving DecidableEq, Repr

/-- The GnbCuConfigurationUpdateFailure payload, kept opaque. -/
structure GnbCuConfigurationUpdateFailure where
  cause : String
  deriving DecidableEq, Repr

/-- The GnbCuConfigurationUpdate literal of
Workflow::gnb_cu_configuration_update: transaction id 1 (a TODO in the
source), a to-add list holding exactly one item whose transport layer
address is the EndpointIpAddress (no port) of the worker's F1 endpoint, with
usage Both, and every other field absent. -/
def build_gnb_cu_configuration_update (addr : TransportLayerAddress) :
    GnbCuConfigurationUpdate :=
  { transaction_id := 1
    cells_to_be_activated_list := none
    cells_to_be_deactivated_list := none
    gnb_cu_tnl_association_to_add_list := some
      [{ tnl_association_transport_layer_address :=
           CpTransportLayerAddress.endpointIpAddress addr
         tnl_association_usage := TnlAssociationUsage.both }]
    gnb_cu_tnl_association_to_remove_list := none
    gnb_cu_tnl_association_to_update_list := none
    cells_to_be_barred_list := none
    protected_eutra_resources_list := none
    neighbour_cell_information_list := none
    transport_layer_address_info := none
    ul_bh_non_up_traffic_mapping := none
    bap_address := none }

/-- Observable steps of the GNB-CU Configuration Update workflow. The
spawned and awaited constructors distinguish detaching the
associate_connection future from awaiting it inline; the workflow only ever
emits the spawned one. -/
inductive CuUpdateEvent
  | logMessage (s : String)
  | sendGnbCuConfigurationUpdate (u : GnbCuConfigurationUpdate)
  | spawnedAssociateConnection
  | awaitedAssociateConnection
  deriving DecidableEq, Repr

/-- The F1AP environment of the workflow: the xxap address parse (the
try_into of the source) and the outcome of the
GnbCuConfigurationUpdateProcedure request. -/
structure F1apStack where
  parseAddress : String → Except String TransportLayerAddress
  cuUpdateResult : GnbCuConfigurationUpdate →
    Except (RequestError GnbCuConfigurationUpdateFailure) GnbCuConfigurationUpdateAcknowledge

/-- The workflow's error: address parse failure propagated by try_into's
question mark, or a stack request error. -/
inductive CuUpdateError
  | invalidAddress (s : String)
  | requestFailed (e : RequestError GnbCuConfigurationUpdateFailure)
  deriving DecidableEq, Repr

/-- Workflow::gnb_cu_configuration_update of
gnb_cu_configuration_update.rs: build the update listing the worker's F1
endpoint, send it, and on acknowledge spawn (not await) the
associate_connection future and return Ok. -/
def gnb_cu_configuration_update (stack : F1apStack) (f1ap_endpoint_ip_addr : String) :
    List CuUpdateEvent × Except CuUpdateError Unit :=
  match stack.parseAddress f1ap_endpoint_ip_addr with
  | .error s => ([], .error (.invalidAddress s))
  | .ok addr =>
    let upd := build_gnb_cu_configuration_update addr
    match stack.cuUpdateResult upd with
    | .error e =>
      ([CuUpdateEvent.logMessage "<< GnbCuConfigurationUpdate",
        CuUpdateEvent.sendGnbCuConfigurationUpdate upd],
       .error (.requestFailed e))
    | .ok _ =>
      ([CuUpdateEvent.logMessage "<< GnbCuConfigurationUpdate",
        CuUpdateEvent.sendGnbCuConfigurationUpdate upd,
        CuUpdateEvent.logMessage ">> GnbCuConfigurationUpdateAcknowledge",
        CuUpdateEvent.spawnedAssociateConnection],
       .ok ())

/-- An F1AP environment that parses any address to its code points as a
bitstring stand-in and acknowledges any update. -/
def f1apStackOk : F1apStack :=
  { parseAddress := fun s => .ok { bits := s.data.map fun c => c.toNat % 2 = 0 }
    cuUpdateResult := fun u => .ok { transaction_id := u.transaction_id } }

/-! ## Claim theorems for the GNB-CU Configuration Update workflow -/

/-- Claim C6: for every F1AP endpoint IP address string that parses, the
workflow sends a GnbCuConfigurationUpdate whose to-add list contains exactly
one item whose transport layer address is the EndpointIpAddress of the
worker's F1 endpoint IP (never the port-carrying variant), and it returns Ok
exactly when the acknowledge arrives. -/
theorem gnb_cu_configuration_update_sends_endpoint (stack : F1apStack)
    (f1ap_endpoint_ip_addr : String) (addr : TransportLayerAddress)
    (hparse : stack.parseAddress f1ap_endpoint_ip_addr = .ok addr) :
    CuUpdateEvent.sendGnbCuConfigurationUpdate (build_gnb_cu_configuration_update addr) ∈
      (gnb_cu_configuration_update stack f1ap_endpoint_ip_addr).1
    ∧ (build_gnb_cu_configuration_update addr).gnb_cu_tnl_association_to_add_list =
        some [{ tnl_association_transport_layer_address :=
                  CpTransportLayerAddress.endpointIpAddress addr
                tnl_association_usage := TnlAssociationUsage.both }]
    ∧ ((gnb_cu_configuration_update stack f1ap_endpoint_ip_addr).2 = Except.ok () ↔
        ∃ ack, stack.cuUpdateResult (build_gnb_cu_configuration_update addr) =
          Except.ok ack) := by
  refine ⟨?_, rfl, ?_⟩
  · cases hreq : stack.cuUpdateResult (build_gnb_cu_configuration_update addr) with
    | error e => simp [gnb_cu_configuration_update, hparse, hreq]
    | ok ack => simp [gnb_cu_configuration_update, hparse, hreq]
  · cases hreq : stack.cuUpdateResult (build_gnb_cu_configuration_update addr) with
    | error e => simp [gnb_cu_configuration_update, hparse, hreq]
    | ok ack => simp [gnb_cu_configuration_update, hparse, hreq]

/-- Witness for C6 on a concrete parsing environment. -/
theorem gnb_cu_configuration_update_sends_endpoint_witness :
    f1apStackOk.parseAddress "127.0.0.1" =
      .ok { bits := ("127.0.0.1".data.map fun c => c.toNat % 2 = 0) }
    ∧ (CuUpdateEvent.sendGnbCuConfigurationUpdate
        (build_gnb_cu_configuration_update
          { bits := ("127.0.0.1".data.map fun c => c.toNat % 2 = 0) }) ∈
        (gnb_cu_configuration_update f1apStackOk "127.0.0.1").1
      ∧ (build_gnb_cu_configuration_update
          { bits := ("127.0.0.1".data.map fun c => c.toNat % 2 = 0) }).gnb_cu_tnl_association_to_add_list =
          some [{ tnl_association_transport_layer_address :=
                    CpTransportLayerAddress.endpointIpAddress
                      { bits := ("127.0.0.1".data.map fun c => c.toNat % 2 = 0) }
                  tnl_association_usage := TnlAssociationUsage.both }]
      ∧ ((gnb_cu_configuration_update f1apStackOk "127.0.0.1").2 = Except.ok () ↔
          ∃ ack, f1apStackOk.cuUpdateResult
            (build_gnb_cu_configuration_update
              { bits := ("127.0.0.1".data.map fun c => c.toNat % 2 = 0) }) =
            Except.ok ack)) :=
  ⟨rfl, gnb_cu_configuration_update_sends_endpoint f1apStackOk "127.0.0.1"
    { bits := ("127.0.0.1".data.map fun c => c.toNat % 2 = 0) } rfl⟩

/-- Claim C4: after receiving GnbCuConfigurationUpdateAcknowledge, the
workflow invokes associate_connection as a detached spawned task (the last
step of its trace) and returns Ok without awaiting the resulting coordinator
refresh inline (no awaited step ever appears in the trace). -/
theorem gnb_cu_configuration_update_spawns_detached (stack : F1apStack)
    (f1ap_endpoint_ip_addr : String) (addr : TransportLayerAddress)
    (ack : GnbCuConfigurationUpdateAcknowledge)
    (hparse : stack.parseAddress f1ap_endpoint_ip_addr = .ok addr)
    (hreq : stack.cuUpdateResult (build_gnb_cu_configuration_update addr) = .ok ack) :
    gnb_cu_configuration_update stack f1ap_endpoint_ip_addr =
      ([CuUpdateEvent.logMessage "<< GnbCuConfigurationUpdate",
        CuUpdateEvent.sendGnbCuConfigurationUpdate (build_gnb_cu_configuration_update addr),
        CuUpdateEvent.logMessage ">> GnbCuConfigurationUpdateAcknowledge",
        CuUpdateEvent.spawnedAssociateConnection],
       Except.ok ())
    ∧ (gnb_cu_configuration_update stack f1ap_endpoint_ip_addr).1.getLast? =
        some CuUpdateEvent.spawnedAssociateConnection
    ∧ CuUpdateEvent.awaitedAssociateConnection ∉
        (gnb_cu_configuration_update stack f1ap_endpoint_ip_addr).1 := by
  refine ⟨?_, ?_, ?_⟩ <;> simp [gnb_cu_configuration_update, hparse, hreq]

/-- Witness for C4 on a concrete acknowledging environment. -/
theorem gnb_cu_configuration_update_spawns_detached_witness :
    f1apStackOk.parseAddress "127.0.0.1" =
      .ok { bits := ("127.0.0.1".data.map fun c => c.toNat % 2 = 0) }
    ∧ f1apStackOk.cuUpdateResult
        (build_gnb_cu_configuration_update
          { bits := ("127.0.0.1".data.map fun c => c.toNat % 2 = 0) }) =
        .ok { transaction_id := 1 }
    ∧ (gnb_cu_configuration_update f1apStackOk "127.0.0.1" =
        ([CuUpdateEvent.logMessage "<< GnbCuConfigurationUpdate",
          CuUpdateEvent.sendGnbCuConfigurationUpdate
            (build_gnb_cu_configuration_update
              { bits := ("127.0.0.1".data.map fun c => c.toNat % 2 = 0) }),
          CuUpdateEvent.logMessage ">> GnbCuConfigurationUpdateAcknowledge",
          CuUpdateEvent.spawnedAssociateConnection],
         Except.ok ())
      ∧ (gnb_cu_configuration_update f1apStackOk "127.0.0.1").1.getLast? =
          some CuUpdateEvent.spawnedAssociateConnection
      ∧ CuUpdateEvent.awaitedAssociateConnection ∉
          (gnb_cu_configuration_update f1apStackOk "127.0.0.1").1) :=
  ⟨rfl, rfl, gnb_cu_configuration_update_spawns_detached f1apStackOk "127.0.0.1"
    { bits := ("127.0.0.1".data.map fun c => c.toNat % 2 = 0) }
    { transaction_id := 1 } rfl rfl⟩

/-! ## RRC carriage inside F1AP and PDCP framing (mock_du.rs) -/

/-- Raw encoded bytes, modelled as naturals below 256 by convention. -/
abbrev Bytes := List Nat

/-- The RRC Setup payload field the mock reads. -/
structure RrcSetup where
  rrc_transaction_identifier : Nat
  deriving DecidableEq, Repr

/-- The DL CCCH message alternatives the mock distinguishes: an RrcSetup or
anything else. -/
inductive DlCcchMessageType
  | rrcSetup (s : RrcSetup)
  | other
  deriving DecidableEq, Repr

structure DlCcchMessage where
  message : DlCcchMessageType
  deriving DecidableEq, Repr

/-- The UL DCCH message alternatives the mock sends on SRB 1; their payloads
are carried opaquely through the codec environment. -/
inductive UlDcchMessageType
  | rrcSetupComplete
  | ulInformationTransfer
  | securityModeComplete
  | rrcReconfigurationComplete
  deriving DecidableEq, Repr

structure UlDcchMessage where
  message : UlDcchMessageType
  deriving DecidableEq, Repr

/-- The DL DCCH message alternatives received via the PDCP-framed path. -/
inductive DlDcchMessageType
  | securityModeCommand
  | rrcReconfiguration
  | dlInformationTransfer
  | other
  deriving DecidableEq, Repr

structure DlDcchMessage where
  message : DlDcchMessageType
  deriving DecidableEq, Repr

/-- The out-of-scope codecs as an environment: TS 38.331 RRC encode/decode
and the PDCP PDU framing (PdcpPdu::encode wraps a payload in a PDCP header;
view_inner strips it, failing on a malformed PDU). -/
structure RrcCodec where
  ulDcchToBytes : UlDcchMessage → Except String Bytes
  dlCcchFromBytes : Bytes → Except String DlCcchMessage
  dlDcchFromBytes : Bytes → Except String DlDcchMessage
  pdcpEncode : Bytes → Bytes
  pdcpViewInner : Bytes → Except String Bytes

/-- The mock DU's per-UE context fields the embedded paths read. -/
structure UeContext where
  ue_id : Nat
  gnb_cu_ue_f1ap_id : Option Nat
  deriving DecidableEq, Repr

/-- The UlRrcMessageTransfer fields populated by MockDu::send_ul_rrc. -/
structure UlRrcMessageTransfer where
  gnb_cu_ue_f1ap_id : Nat
  gnb_du_ue_f1ap_id : Nat
  srb_id : Nat
  rrc_container : Bytes
  deriving DecidableEq, Repr

/-- The DlRrcMessageTransfer fields MockDu::receive_rrc_setup reads. -/
structure DlRrcMessageTransfer where
  gnb_cu_ue_f1ap_id : Nat
  gnb_du_ue_f1ap_id : Nat
  srb_id : Nat
  rrc_container : Bytes
  deriving DecidableEq, Repr

inductive MockDuError
  | missingCuUeId
  | codecFailed (s : String)
  | assertionFailed (s : String)
  | unexpectedRrcMessage
  deriving DecidableEq, Repr

/-- MockDu::send_ul_rrc: encode the UlDcchMessage to bytes, encapsulate the
bytes in a PDCP PDU, and wrap the PDCP PDU in an UlRrcMessageTransfer on
SRB 1 (the unwrap of the CU UE id is modelled as an error when absent). -/
def send_ul_rrc (codec : RrcCodec) (ue : UeContext) (rrc : UlDcchMessage) :
    Except MockDuError UlRrcMessageTransfer :=
  match ue.gnb_cu_ue_f1ap_id with
  | none => .error .missingCuUeId
  | some cu_id =>
    match codec.ulDcchToBytes rrc with
    | .error s => .error (.codecFailed s)
    | .ok rrc_bytes =>
      .ok { gnb_cu_ue_f1ap_id := cu_id
            gnb_du_ue_f1ap_id := ue.ue_id
            srb_id := 1
            rrc_container := codec.pdcpEncode rrc_bytes }

/-- MockDu::receive_rrc_setup: assert the DlRrcMessageTransfer is for SRB 0,
then decode the DlCcchMessage directly from the raw container bytes (no PDCP
layer) and require it to be an RrcSetup. -/
def receive_rrc_setup (codec : RrcCodec) (msg : DlRrcMessageTransfer) :
    Except MockDuError RrcSetup :=
  if msg.srb_id = 0 then
    match codec.dlCcchFromBytes msg.rrc_container with
    | .error s => .error (.codecFailed s)
    | .ok m =>
      match m.message with
      | DlCcchMessageType.rrcSetup s => .ok s
      | DlCcchMessageType.other => .error .unexpectedRrcMessage
  else .error (.assertionFailed "srb_id is not 0")

/-- rrc_from_container of mock_du.rs: view the container as a PDCP PDU,
strip the framing, and decode the DL DCCH message from the inner bytes (the
SRB-1 downlink receive path). -/
def rrc_from_container (codec : RrcCodec) (rrc_container : Bytes) :
    Except MockDuError DlDcchMessage :=
  match codec.pdcpViewInner rrc_container with
  | .error s => .error (.codecFailed s)
  | .ok inner =>
    match codec.dlDcchFromBytes inner with
    | .error s => .error (.codecFailed s)
    | .ok m => .ok m

/-- A concrete codec for witnesses: encoding prepends a tag byte, PDCP
framing prepends a 2-byte header, and decoders accept exactly those
shapes. -/
def codecExample : RrcCodec :=
  { ulDcchToBytes := fun m =>
      .ok (match m.message with
        | UlDcchMessageType.rrcSetupComplete => [1]
        | UlDcchMessageType.ulInformationTransfer => [2]
        | UlDcchMessageType.securityModeComplete => [3]
        | UlDcchMessageType.rrcReconfigurationComplete => [4])
    dlCcchFromBytes := fun b =>
      match b with
      | [32, tid] => .ok ⟨DlCcchMessageType.rrcSetup ⟨tid⟩⟩
      | _ => .error "bad ccch"
    dlDcchFromBytes := fun b =>
      match b with
      | [33] => .ok ⟨DlDcchMessageType.securityModeCommand⟩
      | _ => .error "bad dcch"
    pdcpEncode := fun b => 0 :: 0 :: b
    pdcpViewInner := fun b =>
      match b with
      | 0 :: 0 :: rest => .ok rest
      | _ => .error "bad pdcp pdu" }

/-! ## Claim theorem for RRC framing -/

/-- Claim C9: RRC messages carried inside F1AP are PDCP-framed exactly when
the SRB id is 1 or greater and raw otherwise: every UlDcchMessage sent on
SRB 1 is first encoded and then wrapped in a PDCP PDU before being placed in
the RrcContainer; the RrcSetup on SRB 0 is decoded directly from the
container bytes with no PDCP layer (and a non-zero SRB id fails the SRB-0
assertion); the downlink SRB-1 receive path conversely strips a PDCP PDU
before decoding. -/
theorem rrc_pdcp_framing_by_srb (codec : RrcCodec) (ue : UeContext)
    (rrc : UlDcchMessage) (cu_id : Nat) (rrc_bytes : Bytes)
    (msg : DlRrcMessageTransfer)
    (hue : ue.gnb_cu_ue_f1ap_id = some cu_id)
    (henc : codec.ulDcchToBytes rrc = .ok rrc_bytes)
    (hsrb : msg.srb_id = 0) :
    send_ul_rrc codec ue rrc =
      .ok { gnb_cu_ue_f1ap_id := cu_id
            gnb_du_ue_f1ap_id := ue.ue_id
            srb_id := 1
            rrc_container := codec.pdcpEncode rrc_bytes }
    ∧ (∀ s, receive_rrc_setup codec msg = .ok s ↔
        ∃ m, codec.dlCcchFromBytes msg.rrc_container = .ok m
          ∧ m.message = DlCcchMessageType.rrcSetup s)
    ∧ (∀ msg2 : DlRrcMessageTransfer, msg2.srb_id ≠ 0 →
        receive_rrc_setup codec msg2 = .error (.assertionFailed "srb_id is not 0"))
    ∧ (∀ c m, rrc_from_container codec c = .ok m ↔
        ∃ inner, codec.pdcpViewInner c = .ok inner
          ∧ codec.dlDcchFromBytes inner = .ok m) := by
  refine ⟨?_, ?_, ?_, ?_⟩
  · simp [send_ul_rrc, hue, henc]
  · intro s
    rw [receive_rrc_setup, if_pos hsrb]
    cases hccch : codec.dlCcchFromBytes msg.rrc_container with
    | error e => simp
    | ok m =>
      cases hm : m.message with
      | rrcSetup s0 => simp [hm]
      | other => simp [hm]
  · intro msg2 hs
    rw [receive_rrc_setup, if_neg hs]
  · intro c m
    cases hview : codec.pdcpViewInner c with
    | error e => simp [rrc_from_container, hview]
    | ok inner =>
      cases hdec : codec.dlDcchFromBytes inner with
      | error e => simp [rrc_from_container, hview, hdec]
      | ok m0 => simp [rrc_from_container, hview, hdec]

/-- Witness for C9 on the concrete codec, a UE with CU id 7, and an SRB-0
downlink message. -/
theorem rrc_pdcp_framing_by_srb_witness :
    ({ ue_id := 1, gnb_cu_ue_f1ap_id := some 7 } : UeContext).gnb_cu_ue_f1ap_id = some 7
    ∧ codecExample.ulDcchToBytes { message := UlDcchMessageType.securityModeComplete } =
        .ok [3]
    ∧ ({ gnb_cu_ue_f1ap_id := 7, gnb_du_ue_f1ap_id := 1, srb_id := 0,
         rrc_container := [32, 5] } : DlRrcMessageTransfer).srb_id = 0
    ∧ (send_ul_rrc codecExample { ue_id := 1, gnb_cu_ue_f1ap_id := some 7 }
          { message := UlDcchMessageType.securityModeComplete } =
        .ok { gnb_cu_ue_f1ap_id := 7
              gnb_du_ue_f1ap_id := 1
              srb_id := 1
              rrc_container := codecExample.pdcpEncode [3] }
      ∧ (∀ s, receive_rrc_setup codecExample
            { gnb_cu_ue_f1ap_id := 7, gnb_du_ue_f1ap_id := 1, srb_id := 0,
              rrc_container := [32, 5] } = .ok s ↔
          ∃ m, codecExample.dlCcchFromBytes [32, 5] = .ok m
            ∧ m.message = DlCcchMessageType.rrcSetup s)
      ∧ (∀ msg2 : DlRrcMessageTransfer, msg2.srb_id ≠ 0 →
          receive_rrc_setup codecExample msg2 =
            .error (.assertionFailed "srb_id is not 0"))
      ∧ (∀ c m, rrc_from_container codecExample c = .ok m ↔
          ∃ inner, codecExample.pdcpViewInner c = .ok inner
            ∧ codecExample.dlDcchFromBytes inner = .ok m)) :=
  ⟨rfl, rfl, rfl,
    rrc_pdcp_framing_by_srb codecExample { ue_id := 1, gnb_cu_ue_f1ap_id := some 7 }
      { message := UlDcchMessageType.securityModeComplete } 7 [3]
      { gnb_cu_ue_f1ap_id := 7, gnb_du_ue_f1ap_id := 1, srb_id := 0,
        rrc_container := [32, 5] } rfl rfl rfl⟩

end Alsoran
